import Mathlib

/-!
Verification development for a USP (TR-369) agent runtime.

The definitions below are a shallow embedding of the agent's Python sources:
the data-model database (agent_db.py), the USP request handler
(request_handler.py), the notification builders (notify.py), the generic
binding queue (generic_usp_binding.py) and the configuration manager
(utils.py).  Machine integers are modelled as Int/Nat, Python dictionaries as
association lists (insertion ordered, as in CPython 3.7+), exceptions as
Except, and wall-clock time as an explicit Nat parameter.
-/

namespace UspAgent

/-- Decidable equality of Except results, used to evaluate the embedded
operations at concrete inputs. -/
instance exceptDecEq {ε α : Type} [DecidableEq ε] [DecidableEq α] :
    DecidableEq (Except ε α)
  | .error e1, .error e2 =>
    match decEq e1 e2 with
    | isTrue h => isTrue (h ▸ rfl)
    | isFalse h => isFalse fun hh => h (Except.error.inj hh)
  | .ok v1, .ok v2 =>
    match decEq v1 v2 with
    | isTrue h => isTrue (h ▸ rfl)
    | isFalse h => isFalse fun hh => h (Except.ok.inj hh)
  | .error _, .ok _ => isFalse fun hh => Except.noConfusion hh
  | .ok _, .error _ => isFalse fun hh => Except.noConfusion hh

/-- Python dictionary lookup on an insertion-ordered association list. -/
def alookup {α : Type} : List (String × α) → String → Option α
  | [], _ => none
  | (k, v) :: rest, key => if k = key then some v else alookup rest key

/-- Python `key in dict` membership test. -/
def acontains {α : Type} (l : List (String × α)) (key : String) : Bool :=
  (alookup l key).isSome

/-- Python `dict[key] = value`: overwrite in place when present, else append
(CPython dictionaries preserve insertion order). -/
def dictInsert {α : Type} : List (String × α) → String → α → List (String × α)
  | [], key, v => [(key, v)]
  | (k, w) :: rest, key, v =>
    if k = key then (k, v) :: rest else (k, w) :: dictInsert rest key v

/-- Scalar values stored in the agent database (JSON string/int/bool). -/
inductive Value : Type
  | str (s : String)
  | int (n : Int)
  | bool (b : Bool)
deriving DecidableEq, Repr

/-- Python `str()` applied to a database value. -/
def Value.toStr : Value → String
  | .str s => s
  | .int n => toString n
  | .bool b => if b then "True" else "False"

/-! ### Generic USP binding: inbound queue with expiry (generic_usp_binding.py) -/

/-- ExpiringQueueItem: payload, reply-to address, TTL (default 60 s) and the
time.time() value at creation, in whole seconds. -/
structure ExpiringQueueItem where
  payload : String
  replyToAddr : String
  ttl : Nat := 60
  createTime : Nat
deriving DecidableEq, Repr

/-- ExpiringQueueItem.is_expired at wall-clock time `now`:
`(self._create_time + self._ttl) < time.time()`. -/
def ExpiringQueueItem.is_expired (i : ExpiringQueueItem) (now : Nat) : Bool :=
  decide (i.createTime + i.ttl < now)

/-- GenericUspBinding.pop at wall-clock time `now`: if the queue is non-empty,
remove the head; an expired head is dropped (None is returned in its place). -/
def pop (now : Nat) : List ExpiringQueueItem →
    Option ExpiringQueueItem × List ExpiringQueueItem
  | [] => (none, [])
  | q :: rest =>
    if q.is_expired now then (none, rest) else (some q, rest)

/-- Loop body of GenericUspBinding.get_msg for `timeout > 0`, with the number
of remaining iterations made explicit: each iteration sleeps
`sleep_time_interval` seconds (advancing the clock) and then pops. -/
def getMsgIter (interval : Nat) :
    Nat → Nat → List ExpiringQueueItem →
    Option ExpiringQueueItem × List ExpiringQueueItem × Nat
  | 0, now, q => (none, q, now)
  | n + 1, now, q =>
    let now2 := now + interval
    match pop now2 q with
    | (some i, q2) => (some i, q2, now2)
    | (none, q2) => getMsgIter interval n now2 q2

/-- Number of iterations of the `while queue_item is None and sleep_time <
timeout` loop when every pop returns None: the while condition holds as long
as `k * interval < timeout`, i.e. for ceil(timeout/interval) iterations
(the source's default interval is 1; interval = 0 would loop forever in the
source and is not modelled). -/
def iterCount (timeout : Int) (interval : Nat) : Nat :=
  (timeout.toNat + interval - 1) / interval

/-- GenericUspBinding.get_msg at wall-clock time `now`: with a positive
timeout it repeatedly sleeps then pops; otherwise it pops exactly once.
Returns the popped item, the remaining queue and the final clock value. -/
def getMsg (timeout : Int) (interval : Nat) (now : Nat)
    (q : List ExpiringQueueItem) :
    Option ExpiringQueueItem × List ExpiringQueueItem × Nat :=
  if 0 < timeout then getMsgIter interval (iterCount timeout interval) now q
  else
    match pop now q with
    | (r, q2) => (r, q2, now)

/-! ### Path and regex machinery (agent_db.py regex helpers)

The database derives two regexes from an incoming path with `re.sub` and
matches them against its keys with `re.fullmatch`.  The `re.sub` calls are
modelled as character-list scanners with CPython's leftmost, non-overlapping
semantics (scanning resumes after the end of each match); the generated
patterns fall in a small regex fragment (literals, escaped dots, `[0-9]+`,
trailing `.*`) interpreted by a backtracking matcher below. -/

/-- Helper for `re.sub(r'\.[0-9]+\.', ...)`: after a leading dot, consume one
or more digits followed by a dot; returns the characters after the trailing
dot on success (the flag records whether a digit has been seen). -/
def dropNumDot : List Char → Bool → Option (List Char)
  | [], _ => none
  | c :: rest, seen =>
    if c = '.' then (if seen then some rest else none)
    else if c.isDigit then dropNumDot rest true else none

/-- re.sub(r'\.[0-9]+\.', '.{i}.', s): replace each `.N.` (N decimal) by
`.{i}.`, resuming the scan after the trailing dot of the match.  The scan is
written with an explicit fuel equal to the input length (each step consumes
at least one character, so the fuel never runs out); this keeps the
recursion structural. -/
def subDotNumDotFuel : Nat → List Char → List Char
  | 0, l => l
  | _ + 1, [] => []
  | fuel + 1, c :: rest =>
    if c = '.' then
      match dropNumDot rest false with
      | some rest2 => '.' :: '{' :: 'i' :: '}' :: '.' :: subDotNumDotFuel fuel rest2
      | none => '.' :: subDotNumDotFuel fuel rest
    else c :: subDotNumDotFuel fuel rest

/-- Entry point of the `.N.` substitution. -/
def subDotNumDot (l : List Char) : List Char :=
  subDotNumDotFuel l.length l

/-- re.sub(r'\.\*\.', repl, s): replace each literal `.*.` by `repl`,
resuming the scan after the trailing dot of the match. -/
def subDotStarDot (repl : List Char) : List Char → List Char
  | [] => []
  | '.' :: '*' :: '.' :: rest => repl ++ subDotStarDot repl rest
  | c :: rest => c :: subDotStarDot repl rest

/-- re.sub(r'\.', r'\.', s): escape every dot with a backslash. -/
def escDots : List Char → List Char
  | [] => []
  | c :: rest => if c = '.' then '\\' :: '.' :: escDots rest else c :: escDots rest

/-- Database._dm_regex: anchor, collapse instance numbers then wildcards to
`{i}`, escape dots, and allow any suffix for a partial path.  (The `^` is
prepended after the substitutions here; this is equivalent to the source,
which prepends it first, because every substitution match begins with a dot
and therefore cannot involve the leading `^`.) -/
def dmRegexStr (path : String) (partialFlag : Bool) : String :=
  let s := subDotStarDot ".{i}.".data (subDotNumDot path.data)
  String.mk ('^' :: escDots s ++ (if partialFlag then ".*".data else []))

/-- Database._db_regex: anchor, expand wildcards to `[0-9]+`, escape dots,
and allow any suffix for a partial path. -/
def dbRegexStr (path : String) (partialFlag : Bool) : String :=
  let s := subDotStarDot ".[0-9]+.".data path.data
  String.mk ('^' :: escDots s ++ (if partialFlag then ".*".data else []))

/-- Database._generic_dm_path: collapse instance numbers and wildcards to
`{i}` without anchoring or escaping. -/
def genericDmPath (path : String) : String :=
  String.mk (subDotStarDot ".{i}.".data (subDotNumDot path.data))

/-- Atoms of the regex fragment generated by the database helpers. -/
inductive RAtom : Type
  | lit (c : Char)
  | anyChar
  | digitClass
deriving DecidableEq, Repr

/-- Quantifiers of the regex fragment. -/
inductive RQuant : Type
  | one
  | star
  | plus
deriving DecidableEq, Repr

/-- Parse the generated pattern into quantified atoms: backslash escapes,
the `[0-9]` class, `.` as any-character, with optional `*`/`+`. -/
def parseRegex : List Char → List (RAtom × RQuant)
  | [] => []
  | '\\' :: c :: '*' :: rest => (.lit c, .star) :: parseRegex rest
  | '\\' :: c :: '+' :: rest => (.lit c, .plus) :: parseRegex rest
  | '\\' :: c :: rest => (.lit c, .one) :: parseRegex rest
  | '[' :: '0' :: '-' :: '9' :: ']' :: '*' :: rest => (.digitClass, .star) :: parseRegex rest
  | '[' :: '0' :: '-' :: '9' :: ']' :: '+' :: rest => (.digitClass, .plus) :: parseRegex rest
  | '[' :: '0' :: '-' :: '9' :: ']' :: rest => (.digitClass, .one) :: parseRegex rest
  | '.' :: '*' :: rest => (.anyChar, .star) :: parseRegex rest
  | '.' :: '+' :: rest => (.anyChar, .plus) :: parseRegex rest
  | '.' :: rest => (.anyChar, .one) :: parseRegex rest
  | c :: '*' :: rest => (.lit c, .star) :: parseRegex rest
  | c :: '+' :: rest => (.lit c, .plus) :: parseRegex rest
  | c :: rest => (.lit c, .one) :: parseRegex rest

/-- One-character atom matching; Python's `.` does not match a newline. -/
def atomMatch : RAtom → Char → Bool
  | .lit c, d => c = d
  | .anyChar, d => d ≠ '\n'
  | .digitClass, d => d.isDigit

/-- Backtracking matcher for the quantified-atom fragment, with an explicit
fuel (every recursive call decreases tokens + characters, so a fuel of
tokens + characters + 1 never runs out); this keeps the recursion
structural. -/
def reMatchFuel : Nat → List (RAtom × RQuant) → List Char → Bool
  | 0, _, _ => false
  | _ + 1, [], [] => true
  | _ + 1, [], _ :: _ => false
  | fuel + 1, (a, .one) :: ts, s =>
    match s with
    | [] => false
    | c :: s2 => atomMatch a c && reMatchFuel fuel ts s2
  | fuel + 1, (a, .star) :: ts, s =>
    reMatchFuel fuel ts s ||
      (match s with
       | [] => false
       | c :: s2 => atomMatch a c && reMatchFuel fuel ((a, .star) :: ts) s2)
  | fuel + 1, (a, .plus) :: ts, s =>
    match s with
    | [] => false
    | c :: s2 => atomMatch a c && reMatchFuel fuel ((a, .star) :: ts) s2

/-- `reMatch ts s` holds when the whole of `s` matches the whole of `ts`
(fullmatch semantics). -/
def reMatch (ts : List (RAtom × RQuant)) (s : List Char) : Bool :=
  reMatchFuel (ts.length + s.length + 1) ts s

/-- re.fullmatch(pat, s) for the generated fragment; a leading `^` anchor is
a no-op under fullmatch semantics. -/
def reFullmatch (pat : String) (s : String) : Bool :=
  let toks :=
    match pat.data with
    | '^' :: rest => parseRegex rest
    | l => parseRegex l
  reMatch toks s.data

/-- Python str.split(sep) accumulator. -/
def splitAux (sep : Char) : List Char → List Char → List String
  | [], acc => [String.mk acc.reverse]
  | c :: rest, acc =>
    if c = sep then String.mk acc.reverse :: splitAux sep rest []
    else splitAux sep rest (c :: acc)

/-- Python path.split("."): a trailing separator yields a final empty part. -/
def splitDot (s : String) : List String :=
  splitAux '.' s.data []

/-- Python s.split(","). -/
def splitComma (s : String) : List String :=
  splitAux ',' s.data []

/-- Python path.endswith("."). -/
def endsWithDot (s : String) : Bool :=
  match s.data.getLast? with
  | some c => c = '.'
  | none => false

/-- re.search(r'\.[0-9]+\.', s) is not None: some position starts `.N.`. -/
def containsDotNumDot : List Char → Bool
  | [] => false
  | c :: rest => (c = '.' && (dropNumDot rest false).isSome) || containsDotNumDot rest

/-- Literal prefix test for `.*.`. -/
def startsWithDotStarDot : List Char → Bool
  | '.' :: '*' :: '.' :: _ => true
  | _ => false

/-- Python `".*." in s` substring containment. -/
def containsDotStarDot : List Char → Bool
  | [] => false
  | c :: rest => startsWithDotStarDot (c :: rest) || containsDotStarDot rest

/-! ### Agent database (agent_db.py Database) -/

/-- Errors raised by database operations: NoSuchPathError plus Python's
builtin KeyError/TypeError for raw dictionary access and attribute misuse
(the request handler catches only NoSuchPathError). -/
inductive DbErr : Type
  | noSuchPath (path : String)
  | keyError (key : String)
  | typeError (key : String)
deriving DecidableEq, Repr

/-- Ambient machine state read by the synthetic sentinels: seconds since
process start, the host IPv4 address, and the current local time already
rendered as "%Y-%m-%dT%H:%M:%S". -/
structure Env where
  uptime : Int
  ipaddr : String
  nowStr : String
deriving DecidableEq, Repr

/-- Database state: the implemented data model (generic path → access mode
string), the in-memory store (concrete path → value) and the contents last
persisted to the database file by _save. -/
structure Database where
  dm : List (String × String)
  db : List (String × Value)
  file : List (String × Value)
deriving DecidableEq, Repr

/-- Database._build_path_from_parts: join parts with trailing dots, stopping
once the running count equals the requested length (faithful to the source,
which never breaks when the requested length is 0). -/
def dbBuildPathFromPartsAux : List String → Nat → Nat → String
  | [], _, _ => ""
  | p :: ps, count, target =>
    let count2 := count + 1
    (p ++ ".") ++ (if count2 = target then "" else dbBuildPathFromPartsAux ps count2 target)

/-- Database._build_path_from_parts entry point. -/
def dbBuildPathFromParts (parts : List String) (n : Nat) : String :=
  dbBuildPathFromPartsAux parts 0 n

/-- Python str.startswith on whole strings. -/
def strStartsWith (pre s : String) : Bool :=
  pre.data.isPrefixOf s.data

/-- Python str.endswith on whole strings. -/
def strEndsWith (suf s : String) : Bool :=
  pre_rev.isPrefixOf s.data.reverse
where pre_rev : List Char := suf.data.reverse

/-- Database._is_meta_parameter: the path part at the split point both starts
and ends with a double underscore.  (Matched keys always have more than
`partLen` parts, so the out-of-range default is never hit.) -/
def isMetaParameter (parts : List String) (partLen : Nat) : Bool :=
  let part := parts.getD partLen ""
  strStartsWith "__" part && strEndsWith "__" part

/-- Database.find_params: validate the path against the implemented data
model, then collect the store keys matching the store regex, in store
order. -/
def Database.find_params (d : Database) (path : String) : Except DbErr (List String) :=
  let dmRegex := dmRegexStr path (endsWithDot path)
  let dbRegex := dbRegexStr path (endsWithDot path)
  if d.dm.any (fun kv => reFullmatch dmRegex kv.1) then
    .ok ((d.db.map Prod.fst).filter (fun k => reFullmatch dbRegex k))
  else .error (.noSuchPath path)

/-- Row-collection loop of Database.find_instances: truncate each matching
store key to the instance-identifier level, drop meta parameters, and keep
first occurrences only. -/
def findInstancesLoop (dbRegex : String) (partLen : Nat) :
    List String → List String → List String
  | [], acc => acc
  | k :: rest, acc =>
    if reFullmatch dbRegex k then
      let parts := splitDot k
      let foundKey := dbBuildPathFromParts parts partLen ++ parts.getD partLen "" ++ "."
      if !isMetaParameter parts partLen && !acc.contains foundKey then
        findInstancesLoop dbRegex partLen rest (acc ++ [foundKey])
      else
        findInstancesLoop dbRegex partLen rest acc
    else
      findInstancesLoop dbRegex partLen rest acc

/-- Database.find_instances: requires a partial path whose next schema
segment is `{i}`; returns one concrete partial path per row.  (As in
_is_meta_parameter, matched schema keys always have more than `partLen`
parts, so the out-of-range default of getD is never hit.) -/
def Database.find_instances (d : Database) (partialPath : String) :
    Except DbErr (List String) :=
  if endsWithDot partialPath then
    let dmRegex := dmRegexStr partialPath true
    let dbRegex := dbRegexStr partialPath true
    let partLen := (splitDot partialPath).length - 1
    if d.dm.any (fun kv =>
        reFullmatch dmRegex kv.1 && (splitDot kv.1).getD partLen "" = "{i}") then
      .ok (findInstancesLoop dbRegex partLen (d.db.map Prod.fst) [])
    else .error (.noSuchPath partialPath)
  else .error (.noSuchPath partialPath)

/-- Python re.sub(r'NumberOfEntries', '.', path): replace every occurrence,
resuming the scan after each match.  Fuel equal to the input length keeps
the recursion structural (each step consumes at least one character). -/
def replaceNumberOfEntriesFuel : Nat → List Char → List Char
  | 0, l => l
  | _ + 1, [] => []
  | fuel + 1, c :: rest =>
    if "NumberOfEntries".data.isPrefixOf (c :: rest) then
      '.' :: replaceNumberOfEntriesFuel fuel ((c :: rest).drop 15)
    else c :: replaceNumberOfEntriesFuel fuel rest

/-- Entry point of the NumberOfEntries substitution. -/
def replaceNumberOfEntries (l : List Char) : List Char :=
  replaceNumberOfEntriesFuel l.length l

/-- Database.get: resolve the synthetic sentinels (__UPTIME__, __IPADDR__,
__CURR_TIME__, __NUM_ENTRIES__) and otherwise return the stored value;
NoSuchPathError when the path is absent.  The __CURR_TIME__ branch reads
Device.Time.LocalTimeZone by raw dictionary access (KeyError if absent,
TypeError if not a string); the __NUM_ENTRIES__ branch counts the rows of
the table derived by replacing "NumberOfEntries" with ".". -/
def Database.get (d : Database) (env : Env) (path : String) : Except DbErr Value :=
  match alookup d.db path with
  | none => .error (.noSuchPath path)
  | some v =>
    if v = .str "__UPTIME__" then .ok (.int env.uptime)
    else if v = .str "__IPADDR__" then .ok (.str env.ipaddr)
    else if v = .str "__CURR_TIME__" then
      match alookup d.db "Device.Time.LocalTimeZone" with
      | none => .error (.keyError "Device.Time.LocalTimeZone")
      | some (.str tz) =>
        let tzPart := (splitComma tz).getD 0 ""
        .ok (.str (env.nowStr ++ (if tzPart = "CST6CDT" then "-06:00" else "Z")))
      | some _ => .error (.typeError "Device.Time.LocalTimeZone")
    else if v = .str "__NUM_ENTRIES__" then
      match d.find_instances (String.mk (replaceNumberOfEntries path.data)) with
      | .ok found => .ok (.int found.length)
      | .error e => .error e
    else .ok v

/-- Database.update: overwrite an existing path and persist (_save writes
the whole store to the file); NoSuchPathError when the path is absent. -/
def Database.update (d : Database) (path : String) (v : Value) :
    Except DbErr Database :=
  if acontains d.db path then
    let db2 := dictInsert d.db path v
    .ok { d with db := db2, file := db2 }
  else .error (.noSuchPath path)

/-- Modelled from the spec: Database.find_objects is called by
UspRequestHandler._get_affected_paths_for_get/_set but is absent from the
sources.  Spec §4.4.5 resolves a partial path to the concrete affected
object paths: the store keys matching the path, truncated to the partial
path's depth (one entry per row, first occurrences kept), after validating
the path against the implemented data model (NoSuchPathError otherwise). -/
def findObjectsLoop (dbRegex : String) (partLen : Nat) :
    List String → List String → List String
  | [], acc => acc
  | k :: rest, acc =>
    if reFullmatch dbRegex k then
      let foundKey := dbBuildPathFromParts (splitDot k) partLen
      if !acc.contains foundKey then
        findObjectsLoop dbRegex partLen rest (acc ++ [foundKey])
      else
        findObjectsLoop dbRegex partLen rest acc
    else
      findObjectsLoop dbRegex partLen rest acc

/-- Modelled from the spec: entry point of Database.find_objects (see
findObjectsLoop). -/
def Database.find_objects (d : Database) (partialPath : String) :
    Except DbErr (List String) :=
  let dmRegex := dmRegexStr partialPath true
  if d.dm.any (fun kv => reFullmatch dmRegex kv.1) then
    let dbRegex := dbRegexStr partialPath true
    let partLen := (splitDot partialPath).length - 1
    .ok (findObjectsLoop dbRegex partLen (d.db.map Prod.fst) [])
  else .error (.noSuchPath partialPath)

/-- Modelled from the spec: Database.is_param_writable is called by
UspRequestHandler._validate_set_params but is absent from the sources.  Spec
§3.2 defines the schema registry as generic_path → access_mode with
access_mode ∈ {read-only, read-write} and §7 raises NotWritable on set; the
model resolves the parameter path to its generic form (the source's
_generic_dm_path) and reports whether its schema entry is "readWrite",
raising NoSuchPathError when there is no schema entry for it. -/
def Database.is_param_writable (d : Database) (path : String) :
    Except DbErr Bool :=
  match alookup d.dm (genericDmPath path) with
  | some mode => .ok (mode = "readWrite")
  | none => .error (.noSuchPath path)

/-! ### Configuration manager (utils.py ConfigMgr) -/

/-- MissingConfigError raised by ConfigMgr.get_cfg_item. -/
inductive ConfigErr : Type
  | missingConfig (msg : String)
deriving DecidableEq, Repr

/-- ConfigMgr state: the parsed configuration file contents and the default
value map supplied at construction. -/
structure ConfigMgr where
  cfgFileContents : List (String × Value)
  defaultCfgValMap : List (String × Value)
deriving DecidableEq, Repr

/-- ConfigMgr.get_cfg_item: the configuration file wins, then the default
map; a key absent from both raises MissingConfigError. -/
def ConfigMgr.get_cfg_item (cm : ConfigMgr) (key : String) :
    Except ConfigErr Value :=
  match alookup cm.cfgFileContents key with
  | some v => .ok v
  | none =>
    match alookup cm.defaultCfgValMap key with
    | some v => .ok v
    | none => .error (.missingConfig ("Key [" ++ key ++ "] not found"))

/-! ### USP message and record model (usp_msg / usp_record protobufs)

Proto3 semantics: scalar fields always exist with the type's default value
("" / 0 / false), oneofs are Options, and IsInitialized is vacuously true
since proto3 has no required fields.  Serialization is not modelled: the
payload of a no_session_context record is the decoded inner Msg itself. -/

/-- Header.MsgType enumerators used by the agent. -/
inductive MsgType : Type
  | ERROR | GET | GET_RESP | NOTIFY | NOTIFY_RESP
  | SET | SET_RESP | OPERATE | OPERATE_RESP
  | GET_SUPPORTED_DM | GET_SUPPORTED_DM_RESP
  | GET_INSTANCES | GET_INSTANCES_RESP | GET_SUPPORTED_PROTO
deriving DecidableEq, Repr

/-- Msg.Header. -/
structure Header where
  msgId : String
  msgType : MsgType
deriving DecidableEq, Repr

/-- Set.UpdateParamSetting. -/
structure ParamSetting where
  param : String
  value : String
  required : Bool
deriving DecidableEq, Repr

/-- Set.UpdateObject. -/
structure UpdateObject where
  objPath : String
  paramSettings : List ParamSetting
deriving DecidableEq, Repr

/-- Set request body. -/
structure SetReq where
  allowPartialFlag : Bool
  updateObjs : List UpdateObject
deriving DecidableEq, Repr

/-- Get request body. -/
structure GetReq where
  paramPaths : List String
deriving DecidableEq, Repr

/-- Operate request body. -/
structure OperateReq where
  command : String
  commandKey : String
  sendResp : Bool
deriving DecidableEq, Repr

/-- Notify.Event. -/
structure EventNotif where
  objPath : String
  eventName : String
  params : List (String × String)
deriving DecidableEq, Repr

/-- Notify.ValueChange. -/
structure ValueChangeNotif where
  paramPath : String
  paramValue : String
deriving DecidableEq, Repr

/-- Notify notification oneof (the variants the agent emits). -/
inductive NotifVariant : Type
  | event (e : EventNotif)
  | valueChange (v : ValueChangeNotif)
deriving DecidableEq, Repr

/-- Notify request body. -/
structure NotifyReq where
  subscriptionId : String
  sendResp : Bool
  notif : Option NotifVariant
deriving DecidableEq, Repr

/-- Request oneof req_type. -/
inductive Request : Type
  | get (g : GetReq)
  | set (s : SetReq)
  | operate (o : OperateReq)
  | notify (n : NotifyReq)
  | getInstances (objPaths : List String)
  | getSupportedDM (objPaths : List String)
deriving DecidableEq, Repr

/-- GetResp.ResolvedPathResult. -/
structure ResolvedPathResult where
  resolvedPath : String
  resultParams : List (String × String)
deriving DecidableEq, Repr

/-- GetResp.RequestedPathResult. -/
structure RequestedPathResult where
  requestedPath : String
  errCode : Nat
  errMsg : String
  resolvedPathResults : List ResolvedPathResult
deriving DecidableEq, Repr

/-- Get response body. -/
structure GetResp where
  reqPathResults : List RequestedPathResult
deriving DecidableEq, Repr

/-- SetResp.ParameterError. -/
structure ParameterError where
  param : String
  errCode : Nat
  errMsg : String
deriving DecidableEq, Repr

/-- SetResp.UpdatedInstanceResult. -/
structure UpdatedInstanceResult where
  affectedPath : String
  updatedParams : List (String × String)
  paramErrs : List ParameterError
deriving DecidableEq, Repr

/-- SetResp.UpdatedInstanceFailure. -/
structure UpdatedInstanceFailure where
  affectedPath : String
  paramErrs : List ParameterError
deriving DecidableEq, Repr

/-- SetResp.UpdatedObjectResult.OperationStatus. -/
inductive OperStatus : Type
  | operSuccess (updatedInstResults : List UpdatedInstanceResult)
  | operFailure (errCode : Nat) (errMsg : String)
      (updatedInstFailures : List UpdatedInstanceFailure)
deriving DecidableEq, Repr

/-- SetResp.UpdatedObjectResult. -/
structure UpdatedObjectResult where
  requestedPath : String
  operStatus : OperStatus
deriving DecidableEq, Repr

/-- Set response body. -/
structure SetResp where
  updatedObjResults : List UpdatedObjectResult
deriving DecidableEq, Repr

/-- OperateResp.OperationResult (only req_output_args is populated by the
agent; executed_command keeps its proto3 default). -/
structure OperationResult where
  executedCommand : String
  outputArgs : List (String × String)
deriving DecidableEq, Repr

/-- Operate response body. -/
structure OperateResp where
  operationResults : List OperationResult
deriving DecidableEq, Repr

/-- Response oneof resp_type (the variants the agent produces). -/
inductive Response : Type
  | getResp (g : GetResp)
  | setResp (s : SetResp)
  | operateResp (o : OperateResp)
deriving DecidableEq, Repr

/-- Error.ParamError. -/
structure ErrParamError where
  paramPath : String
  errCode : Nat
  errMsg : String
deriving DecidableEq, Repr

/-- Msg.Body.Error. -/
structure ErrorBody where
  errCode : Nat
  errMsg : String
  paramErrs : List ErrParamError
deriving DecidableEq, Repr

/-- Body oneof msg_body. -/
inductive Body : Type
  | request (r : Request)
  | response (r : Response)
  | error (e : ErrorBody)
deriving DecidableEq, Repr

/-- USP Msg. -/
structure Msg where
  header : Header
  body : Option Body
deriving DecidableEq, Repr

/-- Record payload_security enum (only PLAINTEXT is supported). -/
inductive PayloadSecurity : Type
  | PLAINTEXT
  | TLS12
deriving DecidableEq, Repr

/-- Record record_type oneof; the payload of a no_session_context record is
modelled as the decoded inner Msg. -/
inductive RecordType : Type
  | noSessionContext (payload : Msg)
  | sessionContext
deriving DecidableEq, Repr

/-- USP Record envelope. -/
structure Record where
  version : String
  toId : String
  fromId : String
  payloadSecurity : PayloadSecurity
  recordType : Option RecordType
deriving DecidableEq, Repr

/-- Proto3 access req.body.request.get: default GetReq when not present. -/
def msgGetReq (m : Msg) : GetReq :=
  match m.body with
  | some (.request (.get g)) => g
  | _ => ⟨[]⟩

/-- Proto3 access req.body.request.set: default SetReq when not present. -/
def msgSetReq (m : Msg) : SetReq :=
  match m.body with
  | some (.request (.set s)) => s
  | _ => ⟨false, []⟩

/-- Proto3 access req.body.request.operate: default when not present. -/
def msgOperateReq (m : Msg) : OperateReq :=
  match m.body with
  | some (.request (.operate o)) => o
  | _ => ⟨"", "", false⟩

/-- req.body.request.WhichOneof("req_type"); None when the body does not
hold a request at all (the default Request instance has no oneof set). -/
def whichReqType (m : Msg) : Option String :=
  match m.body with
  | some (.request r) =>
    some (match r with
      | .get _ => "get"
      | .set _ => "set"
      | .operate _ => "operate"
      | .notify _ => "notify"
      | .getInstances _ => "get_instances"
      | .getSupportedDM _ => "get_supported_dm")
  | _ => none

/-- UspErrMsg.generate_error (utils.py): an ERROR message echoing the
request's msg_id, with the given code and text and no param_errs yet. -/
def generateError (msgId : String) (errorCode : Nat) (errorMessage : String) : Msg :=
  { header := ⟨msgId, .ERROR⟩, body := some (.error ⟨errorCode, errorMessage, []⟩) }

/-! ### Notification builders (notify.py) -/

/-- PeriodicNotification state: endpoint ids, subscription id and the
subscription's first reference path handed to the constructor. -/
structure PeriodicNotification where
  fromId : String
  toId : String
  subscriptionId : String
  param : String
deriving DecidableEq, Repr

/-- PeriodicNotification.generate_notif_msg.  _init_notif stamps a freshly
minted random message id (modelled as the msgId argument), msg_type NOTIFY,
the subscription id and send_resp = False; the event fields are then set to
the hard-coded obj_path "Device.LocalAgent." and event_name "Periodic!"
(the stored param is not consulted). -/
def PeriodicNotification.generate_notif_msg (pn : PeriodicNotification)
    (msgId : String) : Msg :=
  { header := ⟨msgId, .NOTIFY⟩,
    body := some (.request (.notify
      ⟨pn.subscriptionId, false,
       some (.event ⟨"Device.LocalAgent.", "Periodic!", []⟩)⟩)) }

/-- ValueChangeNotification state (notify.py). -/
structure ValueChangeNotification where
  fromId : String
  toId : String
  subscriptionId : String
  param : String
  value : Value
deriving DecidableEq, Repr

/-- ValueChangeNotification.generate_notif_msg: value_change with the
watched path and the stringified value. -/
def ValueChangeNotification.generate_notif_msg (vc : ValueChangeNotification)
    (msgId : String) : Msg :=
  { header := ⟨msgId, .NOTIFY⟩,
    body := some (.request (.notify
      ⟨vc.subscriptionId, false,
       some (.valueChange ⟨vc.param, vc.value.toStr⟩)⟩)) }

/-! ### USP request handler (request_handler.py) -/

/-- The hard-coded camera operation command. -/
def TAKE_PICTURE_CAMERA_OP : String :=
  "Device.Services.HomeAutomation.1.Camera.1.TakePicture()"

/-- utils.PathHelper.build_path_from_parts: clamp an over-long split point
to the last part (appending that part without a trailing dot) and join the
first `n` parts, each followed by a dot, when `n > 0`. -/
def buildPathFromParts (pathParts : List String) (n0 : Nat) : String :=
  let len := pathParts.length
  let appendParam := n0 ≥ len
  let n := if n0 ≥ len then len - 1 else n0
  let built := if 0 < n then dbBuildPathFromPartsAux pathParts 0 n else ""
  if appendParam then built ++ pathParts.getD (len - 1) "" else built

/-- UspRequestHandler._split_path: a partial path is returned whole with no
parameter name; otherwise the last dotted segment is the parameter name. -/
def splitPath (path : String) : String × Option String :=
  if endsWithDot path then (path, none)
  else
    let pathParts := splitDot path
    let partialPathLen := pathParts.length - 1
    (buildPathFromParts pathParts partialPathLen,
     some (pathParts.getD partialPathLen ""))

/-- Prefix-agreement index of UspRequestHandler._diff_paths: advance while
the negative path's parts agree with the full path's parts. -/
def diffIndex : List String → List String → Nat → Nat
  | [], _, i => i
  | n :: ns, fp, i => if n = fp.getD i "" then diffIndex ns fp (i + 1) else i

/-- Join parts with single dots and no trailing dot. -/
def joinWithDots : List String → String
  | [] => ""
  | [p] => p
  | p :: ps => p ++ "." ++ joinWithDots ps

/-- UspRequestHandler._diff_paths: remove the agreeing prefix of
negative_path from full_path. -/
def diffPaths (negativePath fullPath : String) : String :=
  let np := splitDot negativePath
  let fp := splitDot fullPath
  joinWithDots (fp.drop (diffIndex np fp 0))

/-- UspRequestHandler._is_partial_path_searching: literal ".*." substring. -/
def isPartialPathSearching (partialPath : String) : Bool :=
  containsDotStarDot partialPath.data

/-- UspRequestHandler._is_partial_path_static: neither a wildcard segment
nor an instance-number segment. -/
def isPartialPathStatic (partialPath : String) : Bool :=
  if !isPartialPathSearching partialPath then !containsDotNumDot partialPath.data
  else false

/-- UspRequestHandler._get_affected_paths_for_get: any supported path is
accepted, even without instances. -/
def getAffectedPathsForGet (d : Database) (partialPath : String) :
    Except DbErr (List String) :=
  d.find_objects partialPath

/-- UspRequestHandler._get_affected_paths_for_set: resolving to zero rows is
only legal for static or searching paths; an unsupported path raises
SetValidationError 9000 (the pair carries its code and message). -/
def getAffectedPathsForSet (d : Database) (partialPath : String) :
    Except (Nat × String) (List String) :=
  let isStaticPath := isPartialPathStatic partialPath
  let isSearchPath := isPartialPathSearching partialPath
  match d.find_objects partialPath with
  | .error _ => .error (9000, "Invalid obj_path encountered - " ++ partialPath)
  | .ok paths =>
    if paths.length = 0 then
      if isSearchPath || isStaticPath then .ok paths
      else .error (9000, "Non-existent obj_path encountered - " ++ partialPath)
    else .ok paths

/-- Per-affected-path body of UspRequestHandler._process_get: build one
ResolvedPathResult, enumerating the parameters under a partial request or
reading the single named parameter. -/
def getResolvedForPath (env : Env) (d : Database) (paramName : Option String)
    (affectedPath : String) : Except DbErr ResolvedPathResult :=
  match paramName with
  | none => do
    let items ← d.find_params affectedPath
    let resultParams ← items.foldlM (fun acc item => do
        let v ← d.get env item
        pure (dictInsert acc (diffPaths affectedPath item) v.toStr)) []
    pure ⟨affectedPath, resultParams⟩
  | some pname => do
    let v ← d.get env (affectedPath ++ pname)
    pure ⟨affectedPath, [(pname, v.toStr)]⟩

/-- Per-requested-path body of UspRequestHandler._process_get; only
NoSuchPathError is caught (as error 11002), other exceptions propagate. -/
def processGetPath (env : Env) (d : Database) (reqPath : String) :
    Except DbErr RequestedPathResult :=
  let comp : Except DbErr (List ResolvedPathResult) := do
    let (partialPath, paramName) := splitPath reqPath
    let affected ← getAffectedPathsForGet d partialPath
    affected.mapM (getResolvedForPath env d paramName)
  match comp with
  | .ok rs => .ok ⟨reqPath, 0, "", rs⟩
  | .error (.noSuchPath _) =>
    .ok ⟨reqPath, 11002,
         "Invalid Path: " ++ reqPath ++ " is not a part of the supported data model", []⟩
  | .error e => .error e

/-- UspRequestHandler._process_get: a GET_RESP echoing the request msg_id
with one RequestedPathResult per requested path. -/
def processGet (env : Env) (d : Database) (reqMsg : Msg) : Except DbErr Msg := do
  let results ← (msgGetReq reqMsg).paramPaths.mapM (processGetPath env d)
  pure { header := ⟨reqMsg.header.msgId, .GET_RESP⟩,
         body := some (.response (.getResp ⟨results⟩)) }

/-- Per-parameter loop of UspRequestHandler._validate_set_params, threading
the per-instance param_err_list, the set_failure_err_list, the proto
updated_params map and the handler-wide path_to_set_dict.  The try block
catches only NoSuchPathError; other database errors propagate.  A staged
write is recorded only when the parameter is writable and its current value
differs from the requested one; a non-writable parameter yields "Parameter
is not writable" and an unknown one "Parameter does not exist", escalated to
the set_failure list when the setting is required. -/
def vspLoop (env : Env) (d : Database) (affectedPath : String) :
    List ParamSetting → List ParameterError → List ParameterError →
    List (String × String) → List (String × String) →
    Except DbErr (List ParameterError × List ParameterError ×
      List (String × String) × List (String × String))
  | [], paramErrList, setFailureErrList, updatedParams, pathToSetDict =>
    .ok (paramErrList, setFailureErrList, updatedParams, pathToSetDict)
  | p :: rest, paramErrList, setFailureErrList, updatedParams, pathToSetDict =>
    let paramPath := affectedPath ++ p.param
    let step : Except DbErr (Option String × List (String × String) × List (String × String)) :=
      match d.is_param_writable paramPath with
      | .ok true =>
        match d.get env paramPath with
        | .ok curr =>
          let dict2 :=
            if curr ≠ .str p.value then dictInsert pathToSetDict paramPath p.value
            else pathToSetDict
          .ok (none, dictInsert updatedParams p.param p.value, dict2)
        | .error (.noSuchPath _) =>
          .ok (some "Parameter does not exist", updatedParams, pathToSetDict)
        | .error e => .error e
      | .ok false => .ok (some "Parameter is not writable", updatedParams, pathToSetDict)
      | .error (.noSuchPath _) =>
        .ok (some "Parameter does not exist", updatedParams, pathToSetDict)
      | .error e => .error e
    match step with
    | .error e => .error e
    | .ok (none, up2, dict2) =>
      vspLoop env d affectedPath rest paramErrList setFailureErrList up2 dict2
    | .ok (some errMsg, up2, dict2) =>
      let paramErr : ParameterError := ⟨p.param, 9000, errMsg⟩
      if p.required then
        vspLoop env d affectedPath rest paramErrList (setFailureErrList ++ [paramErr]) up2 dict2
      else
        vspLoop env d affectedPath rest (paramErrList ++ [paramErr]) setFailureErrList up2 dict2

/-- UspRequestHandler._validate_set_params: run the per-parameter loop with
fresh accumulators and package the UpdatedInstanceResult. -/
def validateSetParams (env : Env) (d : Database) (affectedPath : String)
    (objToUpdate : UpdateObject) (pathToSetDict : List (String × String)) :
    Except DbErr (List ParameterError × UpdatedInstanceResult × List (String × String)) :=
  match vspLoop env d affectedPath objToUpdate.paramSettings [] [] [] pathToSetDict with
  | .error e => .error e
  | .ok (paramErrList, setFailureErrList, updatedParams, dict2) =>
    .ok (setFailureErrList, ⟨affectedPath, updatedParams, paramErrList⟩, dict2)

/-- UspRequestHandler._handle_set_param_errors.  With allow_partial the
object becomes an oper_failure 9000 on the SetResp (note: the source's
param_err_list accumulates across affected paths, so each successive
UpdatedInstanceFailure repeats the errors of the previous ones — modelled
faithfully); without allow_partial each parameter error becomes an
Error.ParamError with the affected path prepended. -/
def handleSetParamErrors (objPathToUpdate : String) (allowPartialUpdates : Bool)
    (objPathSetFailureErrDict : List (String × List ParameterError))
    (updateObjResultList : List UpdatedObjectResult)
    (setFailureParamErrList : List ErrParamError) :
    List UpdatedObjectResult × List ErrParamError :=
  if allowPartialUpdates then
    let step := objPathSetFailureErrDict.foldl
      (fun (acc : List UpdatedInstanceFailure × List ParameterError) kv =>
        let paramErrList2 := acc.2 ++ kv.2
        (acc.1 ++ [⟨kv.1, paramErrList2⟩], paramErrList2)) ([], [])
    (updateObjResultList ++
      [⟨objPathToUpdate, .operFailure 9000 "Failed to Set Required Parameters" step.1⟩],
     setFailureParamErrList)
  else
    let newErrs := objPathSetFailureErrDict.foldl
      (fun acc kv =>
        acc ++ kv.2.map (fun pe =>
          (⟨kv.1 ++ pe.param, pe.errCode, pe.errMsg⟩ : ErrParamError))) []
    (updateObjResultList, setFailureParamErrList ++ newErrs)

/-- UspRequestHandler._handle_set_validation_err: with allow_partial the
object fails alone via oper_failure; otherwise the whole Set will fail and
the object path is recorded as an Error.ParamError. -/
def handleSetValidationErr (objPathToUpdate : String) (allowPartialUpdates : Bool)
    (errCode : Nat) (errMsg : String)
    (updateObjResultList : List UpdatedObjectResult)
    (setFailureParamErrList : List ErrParamError) :
    List UpdatedObjectResult × List ErrParamError :=
  if allowPartialUpdates then
    (updateObjResultList ++ [⟨objPathToUpdate, .operFailure errCode errMsg []⟩],
     setFailureParamErrList)
  else
    (updateObjResultList,
     setFailureParamErrList ++ [⟨objPathToUpdate, errCode, errMsg⟩])

/-- Inner affected-path loop of UspRequestHandler._validate_set: validate
the parameter settings against each affected path, recording failing paths
in the per-object failure dictionary and appending every
UpdatedInstanceResult. -/
def vsAffectedLoop (env : Env) (d : Database) (obj : UpdateObject) :
    List String → List UpdatedInstanceResult →
    List (String × List ParameterError) → List (String × String) →
    Except DbErr (List UpdatedInstanceResult ×
      List (String × List ParameterError) × List (String × String))
  | [], instResults, failDict, dict => .ok (instResults, failDict, dict)
  | affected :: rest, instResults, failDict, dict =>
    match validateSetParams env d affected obj dict with
    | .error e => .error e
    | .ok (setFailureErrList, instRes, dict2) =>
      let failDict2 :=
        if setFailureErrList.length > 0 then dictInsert failDict affected setFailureErrList
        else failDict
      vsAffectedLoop env d obj rest (instResults ++ [instRes]) failDict2 dict2

/-- Outer UpdateObject loop of UspRequestHandler._validate_set: resolve the
object path (a SetValidationError is handled per allow_partial), validate
each affected path, and record oper_success when no set-failure was seen. -/
def vsObjLoop (env : Env) (d : Database) (allowPartialUpdates : Bool) :
    List UpdateObject → List (String × String) →
    List UpdatedObjectResult → List ErrParamError →
    Except DbErr (List (String × String) × List UpdatedObjectResult × List ErrParamError)
  | [], dict, objResults, failErrs => .ok (dict, objResults, failErrs)
  | obj :: rest, dict, objResults, failErrs =>
    match getAffectedPathsForSet d obj.objPath with
    | .error (code, msg) =>
      let handled := handleSetValidationErr obj.objPath allowPartialUpdates code msg
        objResults failErrs
      vsObjLoop env d allowPartialUpdates rest dict handled.1 handled.2
    | .ok affectedPaths =>
      match vsAffectedLoop env d obj affectedPaths [] [] dict with
      | .error e => .error e
      | .ok (instResults, failDict, dict2) =>
        if failDict.length = 0 then
          vsObjLoop env d allowPartialUpdates rest dict2
            (objResults ++ [⟨obj.objPath, .operSuccess instResults⟩]) failErrs
        else
          let handled := handleSetParamErrors obj.objPath allowPartialUpdates failDict
            objResults failErrs
          vsObjLoop env d allowPartialUpdates rest dict2 handled.1 handled.2

/-- Accumulated outcome of UspRequestHandler._validate_set. -/
structure SetState where
  pathToSetDict : List (String × String)
  updateObjResultList : List UpdatedObjectResult
  setFailureParamErrList : List ErrParamError
deriving DecidableEq, Repr

/-- UspRequestHandler._validate_set over the request's UpdateObjects. -/
def validateSet (env : Env) (d : Database) (reqMsg : Msg) : Except DbErr SetState :=
  let setReq := msgSetReq reqMsg
  match vsObjLoop env d setReq.allowPartialFlag setReq.updateObjs [] [] [] with
  | .error e => .error e
  | .ok (dict, objResults, failErrs) => .ok ⟨dict, objResults, failErrs⟩

/-- Apply the staged writes in dictionary iteration (insertion) order. -/
def applyUpdatesLoop : Database → List (String × String) → Except DbErr Database
  | d, [] => .ok d
  | d, (p, v) :: rest =>
    match d.update p (.str v) with
    | .error e => .error e
    | .ok d2 => applyUpdatesLoop d2 rest

/-- UspRequestHandler._process_set.  resp_msg is pre-initialized with the
request's msg_id and SET_RESP and is what the function always returns.  When
validation collected set failures, the source builds an ERROR 9000 in a
local variable (resp = usp_err_msg.generate_error(...);
resp.body.error.param_errs.extend(set_failure_param_err_list)) but still
returns resp_msg, whose body was never populated — so the constructed ERROR
is discarded and the response is the header-only SET_RESP with an empty
body, while no staged write is applied.  On the non-failing path every
staged write is applied in insertion order and the SET_RESP body carries
the updated-object results. -/
def processSet (env : Env) (d : Database) (reqMsg : Msg) :
    Except DbErr (Msg × Database) :=
  match validateSet env d reqMsg with
  | .error e => .error e
  | .ok st =>
    if st.setFailureParamErrList.length > 0 then
      .ok (⟨⟨reqMsg.header.msgId, .SET_RESP⟩, none⟩, d)
    else
      match applyUpdatesLoop d st.pathToSetDict with
      | .error e => .error e
      | .ok d2 =>
        .ok ({ header := ⟨reqMsg.header.msgId, .SET_RESP⟩,
               body := some (.response (.setResp ⟨st.updateObjResultList⟩)) }, d2)

/-- UspRequestHandler._process_operation: hard-coded camera service.  It
reads the product class from the store (a NoSuchPathError here propagates),
accepts only the TakePicture command for the two camera product classes,
and copies the service's output map into the OperateResp. -/
def processOperation (serviceMap : List (String × List (String × String)))
    (env : Env) (d : Database) (reqMsg : Msg) : Except DbErr Msg :=
  let command := (msgOperateReq reqMsg).command
  match d.get env "Device.DeviceInfo.ProductClass" with
  | .error e => .error e
  | .ok pc =>
    if pc = .str "RPi_Camera" || pc = .str "RPiZero_Camera" then
      if command = TAKE_PICTURE_CAMERA_OP then
        match alookup serviceMap pc.toStr with
        | none => .error (.keyError pc.toStr)
        | some paramMap =>
          let outArgs := paramMap.foldl (fun acc kv => dictInsert acc kv.1 kv.2) []
          .ok { header := ⟨reqMsg.header.msgId, .OPERATE_RESP⟩,
                body := some (.response (.operateResp ⟨[⟨"", outArgs⟩]⟩)) }
      else
        .ok (generateError reqMsg.header.msgId 9000
          ("Operate Failure: invalid command - " ++ command))
    else
      .ok (generateError reqMsg.header.msgId 9000
        ("Operate Failure: unknown product class - " ++ pc.toStr))

/-- UspRequestHandler._process_request: dispatch on the header msg_type
(GET / SET / OPERATE, with a body/oneof consistency check) and wrap the
response Msg in a Record addressed back to the requester. -/
def processRequest (selfId : String)
    (serviceMap : List (String × List (String × String))) (env : Env)
    (d : Database) (reqRecord : Record) (reqMsg : Msg) :
    Except DbErr (Msg × Record × Database) :=
  let toId := reqRecord.fromId
  let defaultResp := generateError reqMsg.header.msgId 9000
    "Message Failure: Request body does not match Header msg_type"
  let branch : Except DbErr (Msg × Database) :=
    match reqMsg.header.msgType with
    | .GET =>
      if whichReqType reqMsg = some "get" then
        (processGet env d reqMsg).map (fun m => (m, d))
      else .ok (defaultResp, d)
    | .SET =>
      if whichReqType reqMsg = some "set" then processSet env d reqMsg
      else .ok (defaultResp, d)
    | .OPERATE =>
      if whichReqType reqMsg = some "operate" then
        (processOperation serviceMap env d reqMsg).map (fun m => (m, d))
      else .ok (defaultResp, d)
    | _ =>
      .ok (generateError reqMsg.header.msgId 9000 "Invalid USP Message: unknown command", d)
  match branch with
  | .error e => .error e
  | .ok (respMsg, d2) =>
    .ok (respMsg,
         { version := "1.0", toId := toId, fromId := selfId,
           payloadSecurity := .PLAINTEXT,
           recordType := some (.noSessionContext respMsg) }, d2)

/-- UspRequestHandler._validate_usp_record_request: the first failing check
in source order, None when validation passes.  (IsInitialized is vacuously
true under proto3 and has no corresponding check.) -/
def validateUspRecordRequest (selfId : String) (r : Record) : Option String :=
  if r.version.length = 0 then some "USP Record missing version"
  else if r.toId.length = 0 then some "USP Record missing to_id"
  else if r.toId ≠ selfId then some "USP Record has incorrect to_id"
  else if r.fromId.length = 0 then some "Header missing from_id"
  else if r.payloadSecurity ≠ .PLAINTEXT then
    some "USP Record has unsupported Payload Security"
  else
    match r.recordType with
    | some (.noSessionContext _) => none
    | _ => some "USP Record has an unsupported Record Type"

/-- UspRequestHandler._handle_usp_msg: the decoded payload of the
no_session_context record (an empty default Msg when the oneof is unset,
matching proto3 access). -/
def recordMsg (r : Record) : Msg :=
  match r.recordType with
  | some (.noSessionContext p) => p
  | _ => ⟨⟨"", .ERROR⟩, none⟩

/-- UspRequestHandler._validate_usp_msg_request: non-empty msg_id and a
request body, first failure in source order. -/
def validateUspMsgRequest (m : Msg) : Option String :=
  if m.header.msgId.length = 0 then some "USP Message Header missing msg_id"
  else
    match m.body with
    | some (.request _) => none
    | _ => some "USP Message Body doesn't contain a Request element"

/-- Failure modes of handle_request: a ProtocolViolationError (wrapping the
validation failure) or an uncaught database error escaping the processing
code (handle_request catches only ProtocolValidationError). -/
inductive HandleErr : Type
  | protocolViolation (msg : String)
  | dbErr (e : DbErr)
deriving DecidableEq, Repr

/-- UspRequestHandler.handle_request: validate the Record, extract and
validate the inner Msg, then process; returns the request msg, the response
msg, the response record and the updated database. -/
def handleRequest (selfId : String)
    (serviceMap : List (String × List (String × String))) (env : Env)
    (d : Database) (reqRecord : Record) :
    Except HandleErr (Msg × Msg × Record × Database) :=
  match validateUspRecordRequest selfId reqRecord with
  | some err => .error (.protocolViolation ("USP Message validation failed: " ++ err))
  | none =>
    match validateUspMsgRequest (recordMsg reqRecord) with
    | some err => .error (.protocolViolation ("USP Message validation failed: " ++ err))
    | none =>
      match processRequest selfId serviceMap env d reqRecord (recordMsg reqRecord) with
      | .ok (respMsg, respRecord, d2) => .ok (recordMsg reqRecord, respMsg, respRecord, d2)
      | .error e => .error (.dbErr e)

/-- Does a record's oneof hold the no_session_context variant? -/
def isNoSessionContext (r : Record) : Bool :=
  match r.recordType with
  | some (.noSessionContext _) => true
  | _ => false

/-- Does a message body hold a request? -/
def bodyIsRequest (m : Msg) : Bool :=
  match m.body with
  | some (.request _) => true
  | _ => false

/-- Did handle_request end in a ProtocolViolationError? -/
def isProtocolViolation {α : Type} : Except HandleErr α → Bool
  | .error (.protocolViolation _) => true
  | _ => false

/-- The (obj_path, event_name) pair of an event notification message, when
the message is one. -/
def msgEventFields (m : Msg) : Option (String × String) :=
  match m.body with
  | some (.request (.notify n)) =>
    match n.notif with
    | some (.event e) => some (e.objPath, e.eventName)
    | _ => none
  | _ => none

/-- The values of the synthetic sentinels (§3.3). -/
def isSentinel (v : Value) : Bool :=
  v = .str "__UPTIME__" || v = .str "__IPADDR__" ||
    v = .str "__CURR_TIME__" || v = .str "__NUM_ENTRIES__"

/-! ### Helper lemmas -/

theorem alookup_dictInsert_self {α : Type} (l : List (String × α)) (k : String) (v : α) :
    alookup (dictInsert l k v) k = some v := by
  induction l with
  | nil => simp [dictInsert, alookup]
  | cons kv rest ih =>
    by_cases h : kv.1 = k
    · simp [dictInsert, alookup, h]
    · simp [dictInsert, alookup, h, ih]

theorem alookup_dictInsert_ne {α : Type} (l : List (String × α)) (k k2 : String) (v : α)
    (h : k2 ≠ k) : alookup (dictInsert l k v) k2 = alookup l k2 := by
  have hkk2 : ¬ (k = k2) := fun hh => h hh.symm
  induction l with
  | nil => simp [dictInsert, alookup, hkk2]
  | cons kv rest ih =>
    obtain ⟨k1, v1⟩ := kv
    by_cases hk : k1 = k
    · subst hk
      simp [dictInsert, alookup, hkk2]
    · simp [dictInsert, alookup, hk, ih]

theorem acontains_dictInsert {α : Type} (l : List (String × α)) (k : String) (v : α) :
    acontains (dictInsert l k v) k = true := by
  simp [acontains, alookup_dictInsert_self]

/-! ### Claim theorems -/

/-- C9: get_cfg_item returns the value from the configuration file when the
key is present there; otherwise the value from the provided default map when
present there; otherwise it raises a missing-configuration error. -/
theorem get_cfg_item_spec (cm : ConfigMgr) (k : String) :
    (∀ v, alookup cm.cfgFileContents k = some v → cm.get_cfg_item k = .ok v) ∧
    (alookup cm.cfgFileContents k = none →
      ∀ v, alookup cm.defaultCfgValMap k = some v → cm.get_cfg_item k = .ok v) ∧
    (alookup cm.cfgFileContents k = none → alookup cm.defaultCfgValMap k = none →
      cm.get_cfg_item k =
        .error (.missingConfig ("Key [" ++ k ++ "] not found"))) := by
  refine ⟨?_, ?_, ?_⟩
  · intro v hv
    simp [ConfigMgr.get_cfg_item, hv]
  · intro h1 v hv
    simp [ConfigMgr.get_cfg_item, h1, hv]
  · intro h1 h2
    simp [ConfigMgr.get_cfg_item, h1, h2]

/-- Witness for C9 at a concrete configuration. -/
theorem get_cfg_item_spec_witness :
    ConfigMgr.get_cfg_item ⟨[("gpio.pin", .str "7")], [("gpio.pin", .str "4")]⟩ "gpio.pin" =
      .ok (.str "7") :=
  (get_cfg_item_spec ⟨[("gpio.pin", .str "7")], [("gpio.pin", .str "4")]⟩ "gpio.pin").1
    (.str "7") (by decide)

theorem pop_some_not_expired (t : Nat) (q : List ExpiringQueueItem)
    (i : ExpiringQueueItem) (q2 : List ExpiringQueueItem)
    (h : pop t q = (some i, q2)) : i.is_expired t = false := by
  cases q with
  | nil => simp [pop] at h
  | cons a rest =>
    by_cases he : a.is_expired t
    · simp [pop, he] at h
    · simp [pop, he] at h
      obtain ⟨h1, _⟩ := h
      subst h1
      simpa using he

theorem is_expired_mono (i : ExpiringQueueItem) {t t2 : Nat} (h : t ≤ t2)
    (he : i.is_expired t = true) : i.is_expired t2 = true := by
  simp [ExpiringQueueItem.is_expired] at he ⊢
  omega

theorem getMsgIter_some_not_expired (interval : Nat) :
    ∀ (n now : Nat) (q : List ExpiringQueueItem) (i : ExpiringQueueItem)
      (q2 : List ExpiringQueueItem) (tf : Nat),
      getMsgIter interval n now q = (some i, q2, tf) →
      i.is_expired tf = false ∧ now ≤ tf := by
  intro n
  induction n with
  | zero =>
    intro now q i q2 tf h
    simp [getMsgIter] at h
  | succ m ih =>
    intro now q i q2 tf h
    simp only [getMsgIter] at h
    cases hp : pop (now + interval) q with
    | mk r q3 =>
      cases r with
      | some j =>
        rw [hp] at h
        simp at h
        obtain ⟨h1, _, h3⟩ := h
        subst h1
        subst h3
        exact ⟨pop_some_not_expired _ _ _ _ hp, Nat.le_add_right _ _⟩
      | none =>
        rw [hp] at h
        simp at h
        have := ih (now + interval) q3 i q2 tf h
        exact ⟨this.1, Nat.le_trans (Nat.le_add_right _ _) this.2⟩

/-- C8: an inbound queue item that has outlived its TTL by the time of a pop
is never returned: pop drops an expired head without returning it, and
get_msg only ever returns items that are unexpired at the (monotonically
advancing) moment they are popped. -/
theorem expired_item_never_delivered (i : ExpiringQueueItem) (t0 : Nat)
    (hexp : i.is_expired t0 = true) :
    (∀ (t : Nat) (q : List ExpiringQueueItem), t0 ≤ t → (pop t q).1 ≠ some i) ∧
    (∀ (timeout : Int) (interval t : Nat) (q : List ExpiringQueueItem),
      t0 ≤ t → (getMsg timeout interval t q).1 ≠ some i) := by
  constructor
  · intro t q hle hsome
    cases hq : pop t q with
    | mk r q2 =>
      rw [hq] at hsome
      simp at hsome
      subst hsome
      have hne := pop_some_not_expired t q i q2 hq
      rw [is_expired_mono i hle hexp] at hne
      exact Bool.true_eq_false.mp hne
  · intro timeout interval t q hle hsome
    unfold getMsg at hsome
    by_cases htime : 0 < timeout
    · rw [if_pos htime] at hsome
      cases hq : getMsgIter interval (iterCount timeout interval) t q with
      | mk r rest =>
        cases rest with
        | mk q2 tf =>
          rw [hq] at hsome
          simp at hsome
          subst hsome
          have h2 := getMsgIter_some_not_expired interval _ t q i q2 tf hq
          have h3 := is_expired_mono i (Nat.le_trans hle h2.2) hexp
          rw [h3] at h2
          exact Bool.true_eq_false.mp h2.1
    · rw [if_neg htime] at hsome
      cases hq : pop t q with
      | mk r q2 =>
        rw [hq] at hsome
        simp at hsome
        subst hsome
        have hne := pop_some_not_expired t q i q2 hq
        rw [is_expired_mono i hle hexp] at hne
        exact Bool.true_eq_false.mp hne

/-- Witness for C8: an item with TTL 60 pushed at time 0 is expired at 61 and
is not returned by a pop at 61. -/
theorem expired_item_never_delivered_witness :
    ExpiringQueueItem.is_expired ⟨"p", "a", 60, 0⟩ 61 = true ∧
    (pop 61 [⟨"p", "a", 60, 0⟩]).1 ≠ some ⟨"p", "a", 60, 0⟩ :=
  ⟨by decide,
   (expired_item_never_delivered ⟨"p", "a", 60, 0⟩ 61 (by decide)).1 61
     [⟨"p", "a", 60, 0⟩] (by decide)⟩

/-- C10: a pop that finds an expired head removes it and returns nothing for
that call, even with a fresh item right behind; get_msg with a non-positive
timeout therefore returns nothing although a deliverable item is present,
and only a subsequent call returns the fresh item. -/
theorem pop_expired_head_hides_fresh (h1 h2 : ExpiringQueueItem)
    (rest : List ExpiringQueueItem) (t : Nat)
    (hexp : h1.is_expired t = true) (hfresh : h2.is_expired t = false) :
    pop t (h1 :: h2 :: rest) = (none, h2 :: rest) ∧
    (∀ (timeout : Int) (interval : Nat), timeout ≤ 0 →
      getMsg timeout interval t (h1 :: h2 :: rest) = (none, h2 :: rest, t)) ∧
    (∀ t2 : Nat, h2.is_expired t2 = false → pop t2 (h2 :: rest) = (some h2, rest)) := by
  refine ⟨?_, ?_, ?_⟩
  · simp [pop, hexp]
  · intro timeout interval htime
    have : ¬ (0 < timeout) := by omega
    simp [getMsg, this, pop, hexp]
  · intro t2 hf2
    simp [pop, hf2]

/-- Witness for C10 at a concrete queue: head pushed at 0 is expired at 61,
the second item pushed at 70 is fresh. -/
theorem pop_expired_head_hides_fresh_witness :
    pop 61 [⟨"a", "r", 60, 0⟩, ⟨"b", "r", 60, 70⟩] =
      (none, [(⟨"b", "r", 60, 70⟩ : ExpiringQueueItem)]) :=
  (pop_expired_head_hides_fresh ⟨"a", "r", 60, 0⟩ ⟨"b", "r", 60, 70⟩ [] 61
    (by decide) (by decide)).1

/-- C7 counterexample: the Periodic notification builder is handed the
subscription's first reference path ("Device.Foo." here) but the generated
event carries the hard-coded obj_path "Device.LocalAgent.", not that path. -/
theorem periodic_notif_objpath_counterexample :
    msgEventFields
        (PeriodicNotification.generate_notif_msg ⟨"agent", "ctl", "sub1", "Device.Foo."⟩ "42") =
      some ("Device.LocalAgent.", "Periodic!") ∧
    ("Device.LocalAgent." : String) ≠ "Device.Foo." := by
  exact ⟨rfl, by decide⟩

/-- C7 amended: every Periodic notification Msg carries event_name
"Periodic!" and the hard-coded event obj_path "Device.LocalAgent.",
regardless of the reference path passed to the builder. -/
theorem periodic_notif_msg_spec (fromId toId subId param msgId : String) :
    PeriodicNotification.generate_notif_msg ⟨fromId, toId, subId, param⟩ msgId =
      ⟨⟨msgId, .NOTIFY⟩,
       some (.request (.notify ⟨subId, false,
         some (.event ⟨"Device.LocalAgent.", "Periodic!", []⟩)⟩))⟩ := rfl

/-- C6: for a path present in the store and a non-sentinel value, get after
update returns that value; update on an absent path fails with NoSuchPath;
and every successful update persists the store to its file. -/
theorem db_update_get_spec (env : Env) (d : Database) (p : String) (v : Value) :
    (acontains d.db p = true → isSentinel v = false →
      ∃ d2, d.update p v = .ok d2 ∧ d2.get env p = .ok v ∧ d2.file = d2.db) ∧
    (acontains d.db p = false → d.update p v = .error (.noSuchPath p)) ∧
    (∀ d2, d.update p v = .ok d2 → d2.file = d2.db) := by
  refine ⟨?_, ?_, ?_⟩
  · intro hc hs
    refine ⟨⟨d.dm, dictInsert d.db p v, dictInsert d.db p v⟩, ?_, ?_, rfl⟩
    · simp [Database.update, hc]
    · simp only [isSentinel, Bool.or_eq_false_iff, decide_eq_false_iff_not] at hs
      obtain ⟨⟨⟨h1, h2⟩, h3⟩, h4⟩ := hs
      simp [Database.get, alookup_dictInsert_self, h1, h2, h3, h4]
  · intro hc
    simp [Database.update, hc]
  · intro d2 h
    by_cases hc : acontains d.db p
    · simp [Database.update, hc] at h
      subst h
      rfl
    · simp [Database.update, hc] at h

/-- Witness for C6 at a concrete store. -/
theorem db_update_get_spec_witness :
    ∃ d2, Database.update ⟨[("D.E", "readWrite")], [("D.E", .str "a")], [("D.E", .str "a")]⟩
        "D.E" (.str "b") = .ok d2 ∧
      d2.get ⟨0, "", ""⟩ "D.E" = .ok (.str "b") ∧ d2.file = d2.db :=
  (db_update_get_spec ⟨0, "", ""⟩
    ⟨[("D.E", "readWrite")], [("D.E", .str "a")], [("D.E", .str "a")]⟩
    "D.E" (.str "b")).1 (by decide) (by decide)

/-- C5 counterexample: Database.update performs no access-mode check, so a
write to a path whose schema entry is read-only succeeds and changes the
stored (and persisted) value. -/
theorem update_readonly_counterexample :
    Database.update ⟨[("D.R", "readOnly")], [("D.R", .str "old")], [("D.R", .str "old")]⟩
        "D.R" (.str "new") =
      .ok ⟨[("D.R", "readOnly")], [("D.R", .str "new")], [("D.R", .str "new")]⟩ ∧
    Value.str "new" ≠ Value.str "old" := by
  exact ⟨by decide, by decide⟩

theorem vspLoop_master (env : Env) (d : Database) (affectedPath : String) :
    ∀ (settings : List ParamSetting) (perrs fails : List ParameterError)
      (upd dict : List (String × String))
      (perrs2 fails2 : List ParameterError) (upd2 dict2 : List (String × String)),
      vspLoop env d affectedPath settings perrs fails upd dict =
        .ok (perrs2, fails2, upd2, dict2) →
      (∀ x ∈ perrs, x ∈ perrs2) ∧ (∀ x ∈ fails, x ∈ fails2) ∧
      (∀ K, d.is_param_writable K = .ok false → alookup dict2 K = alookup dict K) ∧
      (∀ p ∈ settings, d.is_param_writable (affectedPath ++ p.param) = .ok false →
        (⟨p.param, 9000, "Parameter is not writable"⟩ : ParameterError) ∈ fails2 ∨
        (⟨p.param, 9000, "Parameter is not writable"⟩ : ParameterError) ∈ perrs2) := by
  intro settings
  induction settings with
  | nil =>
    intro perrs fails upd dict perrs2 fails2 upd2 dict2 h
    simp [vspLoop] at h
    obtain ⟨h1, h2, _, h4⟩ := h
    subst h1; subst h2; subst h4
    exact ⟨fun x hx => hx, fun x hx => hx, fun K _ => rfl, fun p hp => absurd hp (by simp)⟩
  | cons q rest ih =>
    intro perrs fails upd dict perrs2 fails2 upd2 dict2 h
    simp only [vspLoop] at h
    cases hw : d.is_param_writable (affectedPath ++ q.param) with
    | ok b =>
      cases b with
      | true =>
        rw [hw] at h
        cases hg : d.get env (affectedPath ++ q.param) with
        | ok curr =>
          rw [hg] at h
          simp only at h
          obtain ⟨m1, m2, m3, m4⟩ := ih _ _ _ _ _ _ _ _ h
          refine ⟨m1, m2, ?_, ?_⟩
          · intro K hK
            rw [m3 K hK]
            have hKq : K ≠ affectedPath ++ q.param := by
              intro hEq
              rw [hEq, hw] at hK
              simp at hK
            by_cases hcv : curr ≠ Value.str q.value
            · rw [if_pos hcv, alookup_dictInsert_ne _ _ _ _ hKq]
            · rw [if_neg hcv]
          · intro p hp hro
            rcases List.mem_cons.mp hp with hpq | hpr
            · subst hpq
              rw [hw] at hro
              simp at hro
            · exact m4 p hpr hro
        | error e =>
          rw [hg] at h
          cases e with
          | noSuchPath _ =>
            simp only at h
            by_cases hr : q.required
            · rw [if_pos hr] at h
              obtain ⟨m1, m2, m3, m4⟩ := ih _ _ _ _ _ _ _ _ h
              refine ⟨m1, fun x hx => m2 x (List.mem_append_left _ hx), m3, ?_⟩
              · intro p hp hro
                rcases List.mem_cons.mp hp with hpq | hpr
                · subst hpq
                  rw [hw] at hro
                  simp at hro
                · exact m4 p hpr hro
            · rw [if_neg hr] at h
              obtain ⟨m1, m2, m3, m4⟩ := ih _ _ _ _ _ _ _ _ h
              refine ⟨fun x hx => m1 x (List.mem_append_left _ hx), m2, m3, ?_⟩
              · intro p hp hro
                rcases List.mem_cons.mp hp with hpq | hpr
                · subst hpq
                  rw [hw] at hro
                  simp at hro
                · exact m4 p hpr hro
          | keyError _ => simp at h
          | typeError _ => simp at h
      | false =>
        rw [hw] at h
        simp only at h
        by_cases hr : q.required
        · rw [if_pos hr] at h
          obtain ⟨m1, m2, m3, m4⟩ := ih _ _ _ _ _ _ _ _ h
          refine ⟨m1, fun x hx => m2 x (List.mem_append_left _ hx), m3, ?_⟩
          · intro p hp hro
            rcases List.mem_cons.mp hp with hpq | hpr
            · subst hpq
              exact Or.inl (m2 _ (List.mem_append_right _ (List.mem_singleton_self _)))
            · exact m4 p hpr hro
        · rw [if_neg hr] at h
          obtain ⟨m1, m2, m3, m4⟩ := ih _ _ _ _ _ _ _ _ h
          refine ⟨fun x hx => m1 x (List.mem_append_left _ hx), m2, m3, ?_⟩
          · intro p hp hro
            rcases List.mem_cons.mp hp with hpq | hpr
            · subst hpq
              exact Or.inr (m1 _ (List.mem_append_right _ (List.mem_singleton_self _)))
            · exact m4 p hpr hro
    | error e =>
      rw [hw] at h
      cases e with
      | noSuchPath _ =>
        simp only at h
        by_cases hr : q.required
        · rw [if_pos hr] at h
          obtain ⟨m1, m2, m3, m4⟩ := ih _ _ _ _ _ _ _ _ h
          refine ⟨m1, fun x hx => m2 x (List.mem_append_left _ hx), m3, ?_⟩
          · intro p hp hro
            rcases List.mem_cons.mp hp with hpq | hpr
            · subst hpq
              rw [hw] at hro
              simp at hro
            · exact m4 p hpr hro
        · rw [if_neg hr] at h
          obtain ⟨m1, m2, m3, m4⟩ := ih _ _ _ _ _ _ _ _ h
          refine ⟨fun x hx => m1 x (List.mem_append_left _ hx), m2, m3, ?_⟩
          · intro p hp hro
            rcases List.mem_cons.mp hp with hpq | hpr
            · subst hpq
              rw [hw] at hro
              simp at hro
            · exact m4 p hpr hro
      | keyError _ => simp at h
      | typeError _ => simp at h

/-- C5 amended: a Set against a parameter whose schema entry is read-only
stages no write for it (the staged path_to_set_dict is untouched at that
parameter path) and records a 9000 "Parameter is not writable" error —
escalated to the set-failure list when the setting is required; the bare
Database.update, by contrast, enforces no access mode (see the
counterexample). -/
theorem validateSetParams_readonly_rejected (env : Env) (d : Database)
    (affectedPath : String) (obj : UpdateObject)
    (pathToSetDict : List (String × String)) (fails : List ParameterError)
    (instRes : UpdatedInstanceResult) (dict2 : List (String × String))
    (h : validateSetParams env d affectedPath obj pathToSetDict = .ok (fails, instRes, dict2))
    (p : ParamSetting) (hp : p ∈ obj.paramSettings)
    (hro : d.is_param_writable (affectedPath ++ p.param) = .ok false) :
    alookup dict2 (affectedPath ++ p.param) = alookup pathToSetDict (affectedPath ++ p.param) ∧
    ((⟨p.param, 9000, "Parameter is not writable"⟩ : ParameterError) ∈ fails ∨
     (⟨p.param, 9000, "Parameter is not writable"⟩ : ParameterError) ∈ instRes.paramErrs) := by
  unfold validateSetParams at h
  cases hv : vspLoop env d affectedPath obj.paramSettings [] [] [] pathToSetDict with
  | error e =>
    rw [hv] at h
    simp at h
  | ok res =>
    rw [hv] at h
    obtain ⟨perrs2, fails2, upd2, dc2⟩ := res
    simp at h
    obtain ⟨hf, hi, hd⟩ := h
    subst hf; subst hi; subst hd
    obtain ⟨_, _, m3, m4⟩ := vspLoop_master env d affectedPath _ _ _ _ _ _ _ _ _ hv
    exact ⟨m3 _ hro, m4 p hp hro⟩

/-- Witness for the C5 amended theorem at a concrete read-only parameter. -/
theorem validateSetParams_readonly_rejected_witness :
    alookup ([] : List (String × String)) ("D." ++ "R") = alookup [] ("D." ++ "R") ∧
    ((⟨"R", 9000, "Parameter is not writable"⟩ : ParameterError) ∈
       [(⟨"R", 9000, "Parameter is not writable"⟩ : ParameterError)] ∨
     (⟨"R", 9000, "Parameter is not writable"⟩ : ParameterError) ∈
       ([] : List ParameterError)) :=
  validateSetParams_readonly_rejected ⟨0, "", ""⟩
    ⟨[("D.R", "readOnly")], [("D.R", .str "x")], [("D.R", .str "x")]⟩
    "D." ⟨"D.", [⟨"R", "new", true⟩]⟩ [] [⟨"R", 9000, "Parameter is not writable"⟩]
    ⟨"D.", [], []⟩ [] (by decide) ⟨"R", "new", true⟩ (by decide) (by decide)

/-- Concrete fixture: a two-parameter data model with one table. -/
def exDm : List (String × String) := [("D.E", "readOnly"), ("D.C.{i}.E", "readWrite")]

/-- Concrete fixture: store contents for exDm. -/
def exDb : List (String × Value) := [("D.E", .str "a1"), ("D.C.1.E", .str "x")]

/-- Concrete fixture database. -/
def exD : Database := ⟨exDm, exDb, exDb⟩

/-- Concrete fixture environment. -/
def exEnv : Env := ⟨0, "", ""⟩

/-- C4 counterexample: a fully valid GetInstances request (whose path even
has a row, as find_instances shows) is answered with the generic
"unknown command" ERROR 9000 — the dispatcher has no GetInstances or
GetImplObjects route and never consults find_instances/find_impl_objects. -/
theorem getinstances_request_counterexample :
    handleRequest "a1" [] exEnv exD
        ⟨"1.0", "a1", "c1", .PLAINTEXT, some (.noSessionContext
          ⟨⟨"m4", .GET_INSTANCES⟩, some (.request (.getInstances ["D.C."]))⟩)⟩ =
      .ok (⟨⟨"m4", .GET_INSTANCES⟩, some (.request (.getInstances ["D.C."]))⟩,
           generateError "m4" 9000 "Invalid USP Message: unknown command",
           ⟨"1.0", "c1", "a1", .PLAINTEXT,
            some (.noSessionContext
              (generateError "m4" 9000 "Invalid USP Message: unknown command"))⟩,
           exD) ∧
    Database.find_instances exD "D.C." = .ok ["D.C.1."] := by
  exact ⟨by decide, by decide⟩

/-- C4 amended: the dispatcher routes only Get, Set and Operate; every other
message type — GetInstances and GetImplObjects included — produces the
ERROR 9000 "Invalid USP Message: unknown command" response wrapped in a
record addressed back to the requester. -/
theorem processRequest_unknown_msgtype (selfId : String)
    (serviceMap : List (String × List (String × String))) (env : Env)
    (d : Database) (reqRecord : Record) (reqMsg : Msg)
    (h1 : reqMsg.header.msgType ≠ .GET) (h2 : reqMsg.header.msgType ≠ .SET)
    (h3 : reqMsg.header.msgType ≠ .OPERATE) :
    processRequest selfId serviceMap env d reqRecord reqMsg =
      .ok (generateError reqMsg.header.msgId 9000 "Invalid USP Message: unknown command",
           ⟨"1.0", reqRecord.fromId, selfId, .PLAINTEXT,
            some (.noSessionContext (generateError reqMsg.header.msgId 9000
              "Invalid USP Message: unknown command"))⟩, d) := by
  cases ht : reqMsg.header.msgType <;>
    first
      | exact absurd ht h1
      | exact absurd ht h2
      | exact absurd ht h3
      | simp [processRequest, ht, Record.mk.injEq]

/-- Witness for the C4 amended theorem at a concrete GetImplObjects-style
(GET_SUPPORTED_DM) request. -/
theorem processRequest_unknown_msgtype_witness :
    processRequest "a1" [] exEnv exD ⟨"1.0", "a1", "c1", .PLAINTEXT, none⟩
        ⟨⟨"m9", .GET_SUPPORTED_DM⟩, some (.request (.getSupportedDM ["D."]))⟩ =
      .ok (generateError "m9" 9000 "Invalid USP Message: unknown command",
           ⟨"1.0", "c1", "a1", .PLAINTEXT,
            some (.noSessionContext
              (generateError "m9" 9000 "Invalid USP Message: unknown command"))⟩, exD) :=
  processRequest_unknown_msgtype "a1" [] exEnv exD _ _ (by decide) (by decide) (by decide)

theorem processGet_header (env : Env) (d : Database) (m : Msg) (r : Msg)
    (h : processGet env d m = .ok r) :
    r.header = ⟨m.header.msgId, .GET_RESP⟩ := by
  unfold processGet at h
  cases hm : (msgGetReq m).paramPaths.mapM (processGetPath env d) with
  | error e => rw [hm] at h; simp at h
  | ok results =>
    rw [hm] at h
    simp at h
    rw [← h]

theorem processSet_msgId (env : Env) (d : Database) (m : Msg) (r : Msg)
    (d2 : Database) (h : processSet env d m = .ok (r, d2)) :
    r.header.msgId = m.header.msgId := by
  unfold processSet at h
  cases hv : validateSet env d m with
  | error e => rw [hv] at h; simp at h
  | ok st =>
    rw [hv] at h
    simp only at h
    by_cases hf : st.setFailureParamErrList.length > 0
    · rw [if_pos hf] at h
      simp at h
      rw [← h.1]
    · rw [if_neg hf] at h
      cases ha : applyUpdatesLoop d st.pathToSetDict with
      | error e => rw [ha] at h; simp at h
      | ok dd =>
        rw [ha] at h
        simp at h
        rw [← h.1]

theorem processOperation_msgId (serviceMap : List (String × List (String × String)))
    (env : Env) (d : Database) (m : Msg) (r : Msg)
    (h : processOperation serviceMap env d m = .ok r) :
    r.header.msgId = m.header.msgId := by
  unfold processOperation at h
  cases hg : d.get env "Device.DeviceInfo.ProductClass" with
  | error e => rw [hg] at h; simp at h
  | ok pc =>
    rw [hg] at h
    simp only at h
    by_cases hpc : (pc = .str "RPi_Camera" || pc = .str "RPiZero_Camera") = true
    · rw [if_pos hpc] at h
      by_cases hcmd : (msgOperateReq m).command = TAKE_PICTURE_CAMERA_OP
      · rw [if_pos hcmd] at h
        cases hs : alookup serviceMap pc.toStr with
        | none => rw [hs] at h; simp at h
        | some pm =>
          rw [hs] at h
          simp at h
          rw [← h]
      · rw [if_neg hcmd] at h
        simp at h
        rw [← h]
        rfl
    · rw [if_neg hpc] at h
      simp at h
      rw [← h]
      rfl

theorem processRequest_ids (selfId : String)
    (serviceMap : List (String × List (String × String))) (env : Env)
    (d : Database) (reqRecord : Record) (reqMsg : Msg) (respMsg : Msg)
    (respRecord : Record) (d2 : Database)
    (h : processRequest selfId serviceMap env d reqRecord reqMsg =
      .ok (respMsg, respRecord, d2)) :
    respRecord.toId = reqRecord.fromId ∧ respRecord.fromId = selfId ∧
    respMsg.header.msgId = reqMsg.header.msgId := by
  unfold processRequest at h
  cases ht : reqMsg.header.msgType with
  | GET =>
    rw [ht] at h
    simp only at h
    by_cases hw : whichReqType reqMsg = some "get"
    · rw [if_pos hw] at h
      cases hpg : processGet env d reqMsg with
      | error e => rw [hpg] at h; simp [Except.map] at h
      | ok mg =>
        rw [hpg] at h
        simp [Except.map] at h
        obtain ⟨hm, hr, _⟩ := h
        subst hm
        rw [← hr]
        refine ⟨rfl, rfl, ?_⟩
        rw [processGet_header env d reqMsg mg hpg]
    · rw [if_neg hw] at h
      simp at h
      obtain ⟨hm, hr, _⟩ := h
      subst hm
      rw [← hr]
      exact ⟨rfl, rfl, rfl⟩
  | SET =>
    rw [ht] at h
    simp only at h
    by_cases hw : whichReqType reqMsg = some "set"
    · rw [if_pos hw] at h
      cases hps : processSet env d reqMsg with
      | error e => rw [hps] at h; simp at h
      | ok md =>
        obtain ⟨ms, dd⟩ := md
        rw [hps] at h
        simp at h
        obtain ⟨hm, hr, _⟩ := h
        subst hm
        rw [← hr]
        exact ⟨rfl, rfl, processSet_msgId env d reqMsg ms dd hps⟩
    · rw [if_neg hw] at h
      simp at h
      obtain ⟨hm, hr, _⟩ := h
      subst hm
      rw [← hr]
      exact ⟨rfl, rfl, rfl⟩
  | OPERATE =>
    rw [ht] at h
    simp only at h
    by_cases hw : whichReqType reqMsg = some "operate"
    · rw [if_pos hw] at h
      cases hpo : processOperation serviceMap env d reqMsg with
      | error e => rw [hpo] at h; simp [Except.map] at h
      | ok mo =>
        rw [hpo] at h
        simp [Except.map] at h
        obtain ⟨hm, hr, _⟩ := h
        subst hm
        rw [← hr]
        exact ⟨rfl, rfl, processOperation_msgId serviceMap env d reqMsg mo hpo⟩
    · rw [if_neg hw] at h
      simp at h
      obtain ⟨hm, hr, _⟩ := h
      subst hm
      rw [← hr]
      exact ⟨rfl, rfl, rfl⟩
  | ERROR =>
    rw [ht] at h
    simp only at h
    simp at h
    obtain ⟨hm, hr, _⟩ := h
    subst hm
    rw [← hr]
    exact ⟨rfl, rfl, rfl⟩
  | GET_RESP =>
    rw [ht] at h
    simp only at h
    simp at h
    obtain ⟨hm, hr, _⟩ := h
    subst hm
    rw [← hr]
    exact ⟨rfl, rfl, rfl⟩
  | NOTIFY =>
    rw [ht] at h
    simp only at h
    simp at h
    obtain ⟨hm, hr, _⟩ := h
    subst hm
    rw [← hr]
    exact ⟨rfl, rfl, rfl⟩
  | NOTIFY_RESP =>
    rw [ht] at h
    simp only at h
    simp at h
    obtain ⟨hm, hr, _⟩ := h
    subst hm
    rw [← hr]
    exact ⟨rfl, rfl, rfl⟩
  | SET_RESP =>
    rw [ht] at h
    simp only at h
    simp at h
    obtain ⟨hm, hr, _⟩ := h
    subst hm
    rw [← hr]
    exact ⟨rfl, rfl, rfl⟩
  | OPERATE_RESP =>
    rw [ht] at h
    simp only at h
    simp at h
    obtain ⟨hm, hr, _⟩ := h
    subst hm
    rw [← hr]
    exact ⟨rfl, rfl, rfl⟩
  | GET_SUPPORTED_DM =>
    rw [ht] at h
    simp only at h
    simp at h
    obtain ⟨hm, hr, _⟩ := h
    subst hm
    rw [← hr]
    exact ⟨rfl, rfl, rfl⟩
  | GET_SUPPORTED_DM_RESP =>
    rw [ht] at h
    simp only at h
    simp at h
    obtain ⟨hm, hr, _⟩ := h
    subst hm
    rw [← hr]
    exact ⟨rfl, rfl, rfl⟩
  | GET_INSTANCES =>
    rw [ht] at h
    simp only at h
    simp at h
    obtain ⟨hm, hr, _⟩ := h
    subst hm
    rw [← hr]
    exact ⟨rfl, rfl, rfl⟩
  | GET_INSTANCES_RESP =>
    rw [ht] at h
    simp only at h
    simp at h
    obtain ⟨hm, hr, _⟩ := h
    subst hm
    rw [← hr]
    exact ⟨rfl, rfl, rfl⟩
  | GET_SUPPORTED_PROTO =>
    rw [ht] at h
    simp only at h
    simp at h
    obtain ⟨hm, hr, _⟩ := h
    subst hm
    rw [← hr]
    exact ⟨rfl, rfl, rfl⟩

theorem validateRecord_none_toId (selfId : String) (r : Record)
    (h : validateUspRecordRequest selfId r = none) : r.toId = selfId := by
  unfold validateUspRecordRequest at h
  by_cases h1 : r.version.length = 0
  · rw [if_pos h1] at h; simp at h
  · rw [if_neg h1] at h
    by_cases h2 : r.toId.length = 0
    · rw [if_pos h2] at h; simp at h
    · rw [if_neg h2] at h
      by_cases h3 : r.toId ≠ selfId
      · rw [if_pos h3] at h; simp at h
      · exact not_not.mp h3

/-- C3: for every request Record that passes validation, the produced
response Record swaps the endpoint ids (response.to_id = request.from_id,
response.from_id = request.to_id) and the response Msg echoes the request
Msg's msg_id — across Get, Set, Operate and every generated error. -/
theorem handleRequest_response_ids (selfId : String)
    (serviceMap : List (String × List (String × String))) (env : Env)
    (d : Database) (r : Record) (reqMsg respMsg : Msg) (respRecord : Record)
    (d2 : Database)
    (h : handleRequest selfId serviceMap env d r = .ok (reqMsg, respMsg, respRecord, d2)) :
    respRecord.toId = r.fromId ∧ respRecord.fromId = r.toId ∧
    respMsg.header.msgId = reqMsg.header.msgId := by
  unfold handleRequest at h
  cases hv : validateUspRecordRequest selfId r with
  | some e => rw [hv] at h; simp at h
  | none =>
    rw [hv] at h
    simp only at h
    have htoid : r.toId = selfId := validateRecord_none_toId selfId r hv
    cases hm : validateUspMsgRequest (recordMsg r) with
    | some e => rw [hm] at h; simp at h
    | none =>
      rw [hm] at h
      simp only at h
      cases hp : processRequest selfId serviceMap env d r (recordMsg r) with
      | error e => rw [hp] at h; simp at h
      | ok res =>
        obtain ⟨rm, rr, dd⟩ := res
        rw [hp] at h
        simp at h
        obtain ⟨hq, h1, h2, _⟩ := h
        subst hq; subst h1; subst h2
        obtain ⟨t1, t2, t3⟩ := processRequest_ids selfId serviceMap env d r
          (recordMsg r) rm rr dd hp
        exact ⟨t1, by rw [t2, htoid], t3⟩

/-- The GET request message of the C3 witness run. -/
def wit3ReqMsg : Msg := ⟨⟨"m1", .GET⟩, some (.request (.get ⟨["D.E"]⟩))⟩

/-- The request record of the C3 witness run. -/
def wit3Rec : Record :=
  ⟨"1.0", "a1", "c1", .PLAINTEXT, some (.noSessionContext wit3ReqMsg)⟩

/-- The response message produced in the C3 witness run. -/
def wit3RespMsg : Msg :=
  ⟨⟨"m1", .GET_RESP⟩,
   some (.response (.getResp ⟨[⟨"D.E", 0, "", [⟨"D.", [("E", "a1")]⟩]⟩]⟩))⟩

/-- The response record produced in the C3 witness run. -/
def wit3RespRec : Record :=
  ⟨"1.0", "c1", "a1", .PLAINTEXT, some (.noSessionContext wit3RespMsg)⟩

/-- Witness for C3 on a concrete end-to-end GET exchange. -/
theorem handleRequest_response_ids_witness :
    wit3RespRec.toId = wit3Rec.fromId ∧ wit3RespRec.fromId = wit3Rec.toId ∧
    wit3RespMsg.header.msgId = wit3ReqMsg.header.msgId :=
  handleRequest_response_ids "a1" [] exEnv exD wit3Rec wit3ReqMsg wit3RespMsg
    wit3RespRec exD (by decide)

/-- The Set request of the C1 failing run: one valid update and one
non-existent instance-addressed object path, with allow_partial = false. -/
def wit1Msg : Msg :=
  ⟨⟨"m2", .SET⟩, some (.request (.set ⟨false,
    [⟨"D.C.1.", [⟨"E", "y", true⟩]⟩, ⟨"D.C.9.", [⟨"E", "y", true⟩]⟩]⟩))⟩

/-- The validation outcome of the C1 failing run: one staged write, one
oper_success, and one set-failure ParamError for the bad path. -/
def wit1St : SetState :=
  ⟨[("D.C.1.E", "y")],
   [⟨"D.C.1.", .operSuccess [⟨"D.C.1.", [("E", "y")], []⟩]⟩],
   [⟨"D.C.9.", 9000, "Non-existent obj_path encountered - D.C.9."⟩]⟩

/-- C1: evaluation of the Set handler at the failing input.  Validation does
collect exactly one ParamError 9000 for the unresolvable obj_path (second
conjunct) and no write is applied — the database comes back untouched — but
the response is the pre-initialized SET_RESP with an empty body, not the
ERROR message the claim describes: _process_set builds the ERROR with its
param_errs in the local `resp` (request_handler.py:268-271) and then returns
`resp_msg` (line 279), discarding it. -/
theorem processSet_failure_discards_error :
    processSet exEnv exD wit1Msg = .ok (⟨⟨"m2", .SET_RESP⟩, none⟩, exD) ∧
    validateSet exEnv exD wit1Msg = .ok wit1St ∧
    wit1St.setFailureParamErrList =
      [⟨"D.C.9.", 9000, "Non-existent obj_path encountered - D.C.9."⟩] :=
  ⟨by decide, by decide, by decide⟩

theorem strLength_zero_iff (s : String) : s.length = 0 ↔ s = "" := by
  constructor
  · intro h
    obtain ⟨d⟩ := s
    cases d with
    | nil => rfl
    | cons c cs => simp [String.length] at h
  · intro h
    subst h
    rfl

theorem validateRecord_none_iff (selfId : String) (r : Record) (hid : selfId ≠ "") :
    validateUspRecordRequest selfId r = none ↔
      (r.version ≠ "" ∧ r.toId = selfId ∧ r.fromId ≠ "" ∧
       r.payloadSecurity = .PLAINTEXT ∧ isNoSessionContext r = true) := by
  unfold validateUspRecordRequest
  by_cases h1 : r.version.length = 0
  · rw [if_pos h1]
    simp [(strLength_zero_iff _).mp h1]
  · rw [if_neg h1]
    have h1s : r.version ≠ "" := fun hh => h1 ((strLength_zero_iff _).mpr hh)
    by_cases h2 : r.toId.length = 0
    · rw [if_pos h2]
      have h2e : r.toId = "" := (strLength_zero_iff _).mp h2
      have hids : ¬ ("" = selfId) := fun hh => hid hh.symm
      simp [h2e, hids]
    · rw [if_neg h2]
      by_cases h3 : r.toId ≠ selfId
      · rw [if_pos h3]
        simp [h3]
      · rw [if_neg h3]
        have h3e : r.toId = selfId := not_not.mp h3
        by_cases h4 : r.fromId.length = 0
        · rw [if_pos h4]
          simp [(strLength_zero_iff _).mp h4]
        · rw [if_neg h4]
          have h4s : r.fromId ≠ "" := fun hh => h4 ((strLength_zero_iff _).mpr hh)
          by_cases h5 : r.payloadSecurity ≠ .PLAINTEXT
          · rw [if_pos h5]
            simp [h5]
          · rw [if_neg h5]
            have h5e : r.payloadSecurity = .PLAINTEXT := not_not.mp h5
            cases hrt : r.recordType with
            | none => simp [isNoSessionContext, hrt, h1s, h3e, h4s, h5e]
            | some rt =>
              cases rt with
              | noSessionContext p =>
                simp [isNoSessionContext, hrt, h1s, h3e, h4s, h5e]
              | sessionContext =>
                simp [isNoSessionContext, hrt, h1s, h3e, h4s, h5e]

theorem validateMsg_none_iff (m : Msg) :
    validateUspMsgRequest m = none ↔
      (m.header.msgId ≠ "" ∧ bodyIsRequest m = true) := by
  unfold validateUspMsgRequest
  by_cases h1 : m.header.msgId.length = 0
  · rw [if_pos h1]
    simp [(strLength_zero_iff _).mp h1]
  · rw [if_neg h1]
    have h1s : m.header.msgId ≠ "" := fun hh => h1 ((strLength_zero_iff _).mpr hh)
    cases hb : m.body with
    | none => simp [bodyIsRequest, hb, h1s]
    | some b =>
      cases b with
      | request req => simp [bodyIsRequest, hb, h1s]
      | response resp => simp [bodyIsRequest, hb, h1s]
      | error e => simp [bodyIsRequest, hb, h1s]

/-- C2 counterexample: a Record and inner Msg that pass every validation
check (a well-formed Operate request), against a store without a
Device.DeviceInfo.ProductClass entry: handle_request raises the uncaught
NoSuchPathError instead of producing a response, so "otherwise validation
passes and a response is produced" fails at this input. -/
theorem operate_no_product_class_counterexample :
    validateUspRecordRequest "a1"
        ⟨"1.0", "a1", "c1", .PLAINTEXT, some (.noSessionContext
          ⟨⟨"m5", .OPERATE⟩,
           some (.request (.operate ⟨TAKE_PICTURE_CAMERA_OP, "", false⟩))⟩)⟩ = none ∧
    validateUspMsgRequest
        ⟨⟨"m5", .OPERATE⟩,
         some (.request (.operate ⟨TAKE_PICTURE_CAMERA_OP, "", false⟩))⟩ = none ∧
    handleRequest "a1" [] exEnv exD
        ⟨"1.0", "a1", "c1", .PLAINTEXT, some (.noSessionContext
          ⟨⟨"m5", .OPERATE⟩,
           some (.request (.operate ⟨TAKE_PICTURE_CAMERA_OP, "", false⟩))⟩)⟩ =
      .error (.dbErr (.noSuchPath "Device.DeviceInfo.ProductClass")) :=
  ⟨by decide, by decide, by decide⟩

/-- C2 amended: for an agent with a non-empty endpoint id, handle_request
raises ProtocolViolation exactly when the decoded Record has an empty
version, a to_id different from the agent's endpoint id, an empty from_id, a
payload_security other than PLAINTEXT, a record-type variant other than
no_session_context, or its inner Msg has an empty header.msg_id or a body
whose variant is not request.  (Proto3 has no required fields, so the
missing-required-fields check is vacuous.)  When none of these hold,
validation passes and processing yields either a response or an uncaught
database error (see the counterexample). -/
theorem handleRequest_violation_iff (selfId : String)
    (serviceMap : List (String × List (String × String))) (env : Env)
    (d : Database) (r : Record) (hid : selfId ≠ "") :
    isProtocolViolation (handleRequest selfId serviceMap env d r) = true ↔
      (r.version = "" ∨ r.toId ≠ selfId ∨ r.fromId = "" ∨
       r.payloadSecurity ≠ .PLAINTEXT ∨ isNoSessionContext r = false ∨
       (recordMsg r).header.msgId = "" ∨ bodyIsRequest (recordMsg r) = false) := by
  unfold handleRequest
  cases hv : validateUspRecordRequest selfId r with
  | some e =>
    constructor
    · intro _
      have hne : validateUspRecordRequest selfId r ≠ none := by rw [hv]; simp
      have := (validateRecord_none_iff selfId r hid).not.mp hne
      push_neg at this
      by_cases c1 : r.version = ""
      · exact Or.inl c1
      by_cases c2 : r.toId = selfId
      · by_cases c3 : r.fromId = ""
        · exact Or.inr (Or.inr (Or.inl c3))
        · by_cases c4 : r.payloadSecurity = .PLAINTEXT
          · refine Or.inr (Or.inr (Or.inr (Or.inr (Or.inl ?_))))
            have := this c1 c2 c3 c4
            simp [this]
          · exact Or.inr (Or.inr (Or.inr (Or.inl c4)))
      · exact Or.inr (Or.inl c2)
    · intro _
      rfl
  | none =>
    simp only
    have hrec := (validateRecord_none_iff selfId r hid).mp hv
    cases hm : validateUspMsgRequest (recordMsg r) with
    | some e =>
      constructor
      · intro _
        have hne : validateUspMsgRequest (recordMsg r) ≠ none := by rw [hm]; simp
        have := (validateMsg_none_iff (recordMsg r)).not.mp hne
        push_neg at this
        by_cases c1 : (recordMsg r).header.msgId = ""
        · exact Or.inr (Or.inr (Or.inr (Or.inr (Or.inr (Or.inl c1)))))
        · refine Or.inr (Or.inr (Or.inr (Or.inr (Or.inr (Or.inr ?_)))))
          simp [this c1]
      · intro _
        rfl
    | none =>
      simp only
      have hmsg := (validateMsg_none_iff (recordMsg r)).mp hm
      constructor
      · intro hviol
        exfalso
        cases hp : processRequest selfId serviceMap env d r (recordMsg r) with
        | ok res =>
          obtain ⟨rm, rr, dd⟩ := res
          rw [hp] at hviol
          simp [isProtocolViolation] at hviol
        | error e =>
          rw [hp] at hviol
          simp [isProtocolViolation] at hviol
      · intro hcond
        exfalso
        rcases hcond with c | c | c | c | c | c | c
        · exact hrec.1 c
        · exact c hrec.2.1
        · exact hrec.2.2.1 c
        · exact c hrec.2.2.2.1
        · rw [hrec.2.2.2.2] at c
          exact Bool.true_eq_false.mp c
        · exact hmsg.1 c
        · rw [hmsg.2] at c
          exact Bool.true_eq_false.mp c

/-- Witness for the C2 amended theorem: a Record with a wrong to_id is
rejected with ProtocolViolation. -/
theorem handleRequest_violation_iff_witness :
    isProtocolViolation (handleRequest "a1" [] exEnv exD
        ⟨"1.0", "other", "c1", .PLAINTEXT, some (.noSessionContext wit3ReqMsg)⟩) = true :=
  (handleRequest_violation_iff "a1" [] exEnv exD
      ⟨"1.0", "other", "c1", .PLAINTEXT, some (.noSessionContext wit3ReqMsg)⟩
      (by decide)).mpr (Or.inr (Or.inl (by decide)))

end UspAgent
